import Mathlib

/-!
# wingsuits-io game server: session registry and interest management

A shallow embedding of the Go sources

* `game-server/websocket/hub.go` (the `Hub`: `Register`, `Unregister`, `UserID`,
  `HandlePlayerUpdate`, `HandleStartRace`),
* `game-server/game/auth.go` (`Verifier.Parse`, `HandleAuth`, `SendUnknown`),
* `game-server/main.go` (the per-message switch of the connection loop, `dispatch`),
* `game-server/internal/websocket/handler.go` (`Handler.ServeHTTP`).

Modelling conventions.

* A `*websocket.Conn` is an opaque key, a natural number.
* Go maps are association lists with unique keys (`AList`); ranging over a map
  visits the entries in the order of the list. Go leaves that order unspecified
  and no statement below depends on it.
* A finite `float64` is the rational number it denotes. A JSON number is
  rounded to the nearest `float64` when it is decoded (ties to even, an error
  when it overflows), as `strconv.ParseFloat` does. The division
  `x / h.chunkSize` is taken exact.
* `int` is 64 bits wide and integer subtraction wraps. `int(f)` is truncation
  toward zero when the result fits; otherwise Go leaves the result
  implementation-dependent and the model returns what amd64 returns, the
  smallest `int`.
* `json.RawMessage` / message bytes are `Option JSON`: `none` stands for bytes
  that are not one JSON value (empty or malformed), `some j` for the value `j`.
  `json.Unmarshal` is modelled on the value tree, following encoding/json:
  `null` leaves the target as it is, object keys are matched to struct fields
  under case folding, unknown keys are skipped, a later duplicate key is
  decoded over the earlier one, and a value of the wrong JSON kind is an error.
* Every `conn.WriteJSON` is recorded as a `Send` event carrying the result of
  the write, which comes from an oracle `writeFails`. `time.Now()` is an oracle
  too. Logging is not recorded. The mutex is not modelled: operations run one
  at a time.
-/

namespace Wingsuits

/-! ## JSON values and `encoding/json` decoding -/

/-- A parsed JSON value. -/
inductive JSON where
  | null
  | bool (b : Bool)
  | num (q : ℚ)
  | str (s : String)
  | arr (elems : List JSON)
  | obj (fields : List (String × JSON))

/-- Message bytes: `none` when they do not hold one JSON value. -/
abbrev RawMessage := Option JSON

deriving instance DecidableEq for Except

/-- Case folding of one character of an object key. encoding/json compares keys
and field names under Unicode simple folding: the ASCII letters fold together
with their other case, the Kelvin sign U+212A with k and the long s U+017F with
s. Every other character folds among non-ASCII characters only, so it can match
no character of a field name and is left as it is. -/
def foldChar (c : Char) : Char :=
  if c = Char.ofNat 0x212A then 'k'
  else if c = Char.ofNat 0x017F then 's'
  else c.toLower

/-- Case folding of an object key, as used to match keys to struct fields (whose
json tags are written here in lower case). -/
def foldKey (s : String) : String := String.mk (s.data.map foldChar)

/-- Decoding a JSON value into a Go `string` that currently holds `cur`. -/
def decodeString (cur : String) : JSON → Except String String
  | .null => pure cur
  | .str s => pure s
  | _ => throw "json: cannot unmarshal into Go value of type string"

/-- The quotient `N / D` rounded to the nearest natural number, ties to even. -/
def roundHalfEven (N D : Nat) : Nat :=
  let k := N / D
  let r := N % D
  if 2 * r < D then k else if D < 2 * r then k + 1 else if k % 2 = 0 then k else k + 1

/-- Halving `n` until it is below 2, at most `fuel` times, counting the steps. -/
def log2Aux : Nat → Nat → Nat
  | 0, _ => 0
  | fuel + 1, n => if n < 2 then 0 else log2Aux fuel (n / 2) + 1

/-- The position of the leading bit of `n`; `n` halvings always suffice. -/
def natLog2 (n : Nat) : Nat := log2Aux n n

/-- The integer `e` with `2^e ≤ a / b < 2^(e+1)`, for positive `a` and `b`. -/
def floorLog2 (a b : Nat) : Int :=
  let e : Int := (natLog2 a : Int) - (natLog2 b : Int)
  if (if 0 ≤ e then b * 2 ^ e.toNat ≤ a else b ≤ a * 2 ^ (-e).toNat) then e else e - 1

/-- The `float64` nearest to the rational `q` (53 significant bits, exponents
down to the subnormal quantum `2^-1074`, ties to even), or `none` when the
rounded magnitude reaches `2^1024`: the result of `strconv.ParseFloat(s, 64)`
on the number text, with `none` for its range error. -/
def roundFloat64 (q : ℚ) : Option ℚ :=
  if q = 0 then some 0
  else
    let a := q.num.natAbs
    let b := q.den
    let p : Int := max (floorLog2 a b) (-1022) - 52
    let n := if 0 ≤ p then roundHalfEven a (b * 2 ^ p.toNat)
      else roundHalfEven (a * 2 ^ (-p).toNat) b
    let m : ℚ := if 0 ≤ p then ((n * 2 ^ p.toNat : Nat) : ℚ)
      else (n : ℚ) / ((2 ^ (-p).toNat : Nat) : ℚ)
    if ((2 ^ 1024 : Nat) : ℚ) ≤ m then none else some (if q < 0 then -m else m)

/-- Decoding a JSON value into a Go `float64` that currently holds `cur`: a
number is rounded to the nearest `float64`, and one too large for a `float64`
is an error. -/
def decodeFloat (cur : ℚ) : JSON → Except String ℚ
  | .null => pure cur
  | .num q =>
      match roundFloat64 q with
      | some f => pure f
      | none => throw "json: cannot unmarshal number into Go value of type float64"
  | _ => throw "json: cannot unmarshal into Go value of type float64"

/-- Decoding one slot of a fixed-size array: a slot past the end of the JSON
array is set to zero. -/
def decodeElem (cur : ℚ) : Option JSON → Except String ℚ
  | none => pure 0
  | some v => decodeFloat cur v

/-- Go `[3]float64`. -/
structure Vec3 where
  e0 : ℚ
  e1 : ℚ
  e2 : ℚ
deriving DecidableEq

/-- Go `[4]float64`. -/
structure Vec4 where
  e0 : ℚ
  e1 : ℚ
  e2 : ℚ
  e3 : ℚ
deriving DecidableEq

/-- The zero value of `[3]float64`. -/
def Vec3.zero : Vec3 := ⟨0, 0, 0⟩

/-- The zero value of `[4]float64`. -/
def Vec4.zero : Vec4 := ⟨0, 0, 0, 0⟩

/-- Decoding a JSON value into a `[3]float64`; JSON elements past the third
are skipped. -/
def decodeVec3 (cur : Vec3) : JSON → Except String Vec3
  | .null => pure cur
  | .arr xs => do
      let a ← decodeElem cur.e0 (xs.get? 0)
      let b ← decodeElem cur.e1 (xs.get? 1)
      let c ← decodeElem cur.e2 (xs.get? 2)
      pure ⟨a, b, c⟩
  | _ => throw "json: cannot unmarshal into Go value of type [3]float64"

/-- Decoding a JSON value into a `[4]float64`. -/
def decodeVec4 (cur : Vec4) : JSON → Except String Vec4
  | .null => pure cur
  | .arr xs => do
      let a ← decodeElem cur.e0 (xs.get? 0)
      let b ← decodeElem cur.e1 (xs.get? 1)
      let c ← decodeElem cur.e2 (xs.get? 2)
      let d ← decodeElem cur.e3 (xs.get? 3)
      pure ⟨a, b, c, d⟩
  | _ => throw "json: cannot unmarshal into Go value of type [4]float64"

/-- Decoding a JSON value into a struct: `null` is a no-op, an object decodes
its members one after the other into the matching fields, anything else is a
type error. `setField` receives the folded key. -/
def decodeStruct {σ : Type} (setField : σ → String → JSON → Except String σ) (cur : σ) :
    JSON → Except String σ
  | .null => pure cur
  | .obj kvs => kvs.foldlM (fun s kv => setField s (foldKey kv.1) kv.2) cur
  | _ => throw "json: cannot unmarshal into Go value of struct type"

/-- The call `json.Unmarshal(data, &v)` for a struct `v` holding `cur`. -/
def Unmarshal {σ : Type} (setField : σ → String → JSON → Except String σ) (cur : σ) :
    RawMessage → Except String σ
  | none => throw "unexpected end of JSON input"
  | some j => decodeStruct setField cur j

/-! ## hub.go: data model -/

/-- An opaque `*websocket.Conn`. -/
abbrev Conn := Nat

/-- The struct `PlayerState` of hub.go. -/
structure PlayerState where
  Position : Vec3
  Rotation : Vec4
  Velocity : Vec3
  Mode : String
deriving DecidableEq

/-- The zero value of `PlayerState`. -/
def PlayerState.zero : PlayerState := ⟨Vec3.zero, Vec4.zero, Vec3.zero, ""⟩

/-- Field decoding for `PlayerState` (json tags position, rotation, velocity, mode). -/
def PlayerState.setField (s : PlayerState) (key : String) (v : JSON) :
    Except String PlayerState :=
  if key = "position" then do
    let p ← decodeVec3 s.Position v
    pure { s with Position := p }
  else if key = "rotation" then do
    let r ← decodeVec4 s.Rotation v
    pure { s with Rotation := r }
  else if key = "velocity" then do
    let w ← decodeVec3 s.Velocity v
    pure { s with Velocity := w }
  else if key = "mode" then do
    let m ← decodeString s.Mode v
    pure { s with Mode := m }
  else pure s

/-- The local `update` struct of `HandlePlayerUpdate`. -/
structure Update where
  Type_ : String
  Payload : PlayerState
deriving DecidableEq

/-- The zero value of the `update` struct. -/
def Update.zero : Update := ⟨"", PlayerState.zero⟩

/-- Field decoding for the `update` struct (json tags type, payload). -/
def Update.setField (u : Update) (key : String) (v : JSON) : Except String Update :=
  if key = "type" then do
    let t ← decodeString u.Type_ v
    pure { u with Type_ := t }
  else if key = "payload" then do
    let p ← decodeStruct PlayerState.setField u.Payload v
    pure { u with Payload := p }
  else pure u

/-- The spawn point sent with a successful auth result. -/
structure SpawnPoint where
  position : Vec3
  rotation : Vec4
deriving DecidableEq

/-- Outbound messages of the game server. -/
inductive Packet where
  | worldStateUpdate (entities : List PlayerState) (timestamp : Int)
  | authResult (success : Bool) (error : Option String) (spawnPoint : Option SpawnPoint)
  | worldSeed (seed : Int) (chunkSize : Int) (near mid far : Int)
  | raceEvent (event : String) (routeId : String) (countdown : Int)
  | error (message : String)
deriving DecidableEq

/-- One call of `conn.WriteJSON(packet)`; `ok` is false when the write returned an error. -/
structure Send where
  conn : Conn
  packet : Packet
  ok : Bool
deriving DecidableEq

/-- The struct `Hub` of hub.go (without the mutex). -/
structure Hub where
  connToUser : AList (fun _ : Conn => String)
  playerStates : AList (fun _ : String => PlayerState)
  chunkSize : ℚ

/-- Source: `NewHub`. -/
def NewHub (chunkSize : ℚ) : Hub :=
  { connToUser := ∅
    playerStates := ∅
    chunkSize := if chunkSize ≤ 0 then 256 else chunkSize }

/-- Source: `Hub.Register`. -/
def Hub.Register (h : Hub) (userID : String) (conn : Conn) : Hub :=
  { h with connToUser := h.connToUser.insert conn userID }

/-- Source: `Hub.Unregister`. -/
def Hub.Unregister (h : Hub) (conn : Conn) : Hub :=
  match h.connToUser.lookup conn with
  | some userID =>
      { h with connToUser := h.connToUser.erase conn
               playerStates := h.playerStates.erase userID }
  | none => h

/-- Source: `Hub.UserID`; `none` is the `ok = false` result. -/
def Hub.UserID (h : Hub) (conn : Conn) : Option String :=
  h.connToUser.lookup conn

/-! ## hub.go: interest management -/

/-- Truncation of a rational toward zero. -/
def truncate (f : ℚ) : Int := Int.tdiv f.num f.den

/-- Go `int(f)` for a `float64`, with a 64-bit `int`: truncation toward zero
when the result fits. When it does not, Go leaves the result
implementation-dependent; the model returns `-2^63`, which is what the amd64
conversion instruction yields for every such operand. -/
def goInt (f : ℚ) : Int :=
  if -(2 ^ 63) ≤ truncate f ∧ truncate f < 2 ^ 63 then truncate f else -(2 ^ 63)

/-- The value of a 64-bit `int` expression: two's complement wrap-around. -/
def wrapInt (i : Int) : Int := (i + 2 ^ 63) % 2 ^ 64 - 2 ^ 63

/-- The test `math.Abs(float64(a-b)) <= 1` on two `int`s. -/
def absDiffLeOne (a b : Int) : Bool := decide (|((wrapInt (a - b) : Int) : ℚ)| ≤ 1)

/-- The map read `h.playerStates[otherID]`: the zero value when the key is absent. -/
def Hub.stateOf (h : Hub) (otherID : String) : PlayerState :=
  (h.playerStates.lookup otherID).getD PlayerState.zero

/-- The loop `for conn, otherID := range h.connToUser` of `HandlePlayerUpdate`,
over the entries still to visit. The result of each write is discarded by the
code (`_ = conn.WriteJSON(packet)`) and only recorded in the event. -/
def Hub.fanOut (now : Conn → Int) (writeFails : Conn → Bool) (h : Hub)
    (payload : PlayerState) (userID : String) (cx cz : Int) :
    List (Sigma fun _ : Conn => String) → List Send
  | [] => []
  | ⟨conn, otherID⟩ :: rest =>
      if otherID = userID then
        Hub.fanOut now writeFails h payload userID cx cz rest
      else
        let state := h.stateOf otherID
        let ocx := goInt (state.Position.e0 / h.chunkSize)
        let ocz := goInt (state.Position.e2 / h.chunkSize)
        if absDiffLeOne ocx cx && absDiffLeOne ocz cz then
          let packet := Packet.worldStateUpdate [payload] (now conn)
          ⟨conn, packet, !writeFails conn⟩ ::
            Hub.fanOut now writeFails h payload userID cx cz rest
        else
          Hub.fanOut now writeFails h payload userID cx cz rest

/-- Source: `Hub.HandlePlayerUpdate`. Returns the hub afterwards and the writes made. -/
def Hub.HandlePlayerUpdate (now : Conn → Int) (writeFails : Conn → Bool) (h : Hub)
    (payload : RawMessage) (userID : String) : Hub × List Send :=
  match Unmarshal Update.setField Update.zero payload with
  | .error _ => (h, [])
  | .ok update =>
      if update.Type_ ≠ "C2S_PLAYER_UPDATE" then (h, [])
      else
        let h1 : Hub := { h with playerStates := h.playerStates.insert userID update.Payload }
        let cx := goInt (update.Payload.Position.e0 / h1.chunkSize)
        let cz := goInt (update.Payload.Position.e2 / h1.chunkSize)
        (h1, h1.fanOut now writeFails update.Payload userID cx cz h1.connToUser.entries)

/-- The local `message` struct of `HandleStartRace`, flattened: its payload has
the single field `routeId`. -/
structure StartRace where
  Type_ : String
  RouteID : String
deriving DecidableEq

/-- Field decoding for the inner payload of a start-race message (json tag routeId). -/
def StartRace.setRoute (routeID : String) (key : String) (v : JSON) : Except String String :=
  if key = "routeid" then decodeString routeID v else pure routeID

/-- Field decoding for the `message` struct of `HandleStartRace`. -/
def StartRace.setField (m : StartRace) (key : String) (v : JSON) : Except String StartRace :=
  if key = "type" then do
    let t ← decodeString m.Type_ v
    pure { m with Type_ := t }
  else if key = "payload" then do
    let r ← decodeStruct StartRace.setRoute m.RouteID v
    pure { m with RouteID := r }
  else pure m

/-- Source: `Hub.HandleStartRace`. It touches no hub state; the result is the writes made. -/
def Hub.HandleStartRace (writeFails : Conn → Bool) (conn : Conn) (payload : RawMessage) :
    List Send :=
  match Unmarshal StartRace.setField ⟨"", ""⟩ payload with
  | .error _ => []
  | .ok message =>
      if message.Type_ ≠ "C2S_START_RACE" then []
      else [⟨conn, Packet.raceEvent "countdown" message.RouteID 3, !writeFails conn⟩]

/-! ## game/auth.go -/

/-- What `jwt.Parse` hands back to `Verifier.Parse`: the error if any, the
`Valid` flag, whether the claims are `jwt.MapClaims`, and the `sub` claim when
it is a string. The JWT library is an external collaborator. -/
structure JwtToken where
  err : Option String
  Valid : Bool
  mapClaims : Bool
  sub : Option String

/-- The struct `Verifier` of auth.go, together with the JWT library call it makes
(given the secret and the token string). -/
structure Verifier where
  secret : String
  jwtParse : String → String → JwtToken

/-- Source: `Verifier.Parse`. -/
def Verifier.Parse (v : Verifier) (tokenStr : String) : Except String String :=
  if v.secret = "" then throw "jwt secret missing"
  else
    let token := v.jwtParse v.secret tokenStr
    if token.err.isSome || !token.Valid then
      throw ("invalid token: " ++ token.err.getD "%!w(<nil>)")
    else if !token.mapClaims then throw "invalid claims"
    else
      let userID := token.sub.getD ""
      if userID = "" then throw "missing user id" else pure userID

/-- The local `request` struct of `HandleAuth`. -/
structure AuthRequest where
  Token : String
deriving DecidableEq

/-- Field decoding for the `request` struct (json tag token). -/
def AuthRequest.setField (r : AuthRequest) (key : String) (v : JSON) :
    Except String AuthRequest :=
  if key = "token" then do
    let t ← decodeString r.Token v
    pure { r with Token := t }
  else pure r

/-- Source: `sendAuthResult`. The error field is set only for a non-empty message. -/
def sendAuthResult (writeFails : Conn → Bool) (conn : Conn) (success : Bool)
    (errMsg : String) (spawn : Option SpawnPoint) : Send :=
  ⟨conn, Packet.authResult success (if errMsg ≠ "" then some errMsg else none) spawn,
    !writeFails conn⟩

/-- The fixed spawn point of `HandleAuth`. -/
def spawn : SpawnPoint := ⟨⟨0, 10, 0⟩, ⟨0, 0, 0, 1⟩⟩

/-- Source: `HandleAuth`. Returns the `(userID, err)` result and the writes made. -/
def HandleAuth (writeFails : Conn → Bool) (payload : RawMessage) (verifier : Verifier)
    (conn : Conn) : Except String String × List Send :=
  match Unmarshal AuthRequest.setField ⟨""⟩ payload with
  | .error err => (.error err, [sendAuthResult writeFails conn false "invalid payload" none])
  | .ok request =>
      match verifier.Parse request.Token with
      | .error err => (.error err, [sendAuthResult writeFails conn false err none])
      | .ok userID =>
          (.ok userID,
            [sendAuthResult writeFails conn true "" (some spawn),
             ⟨conn, Packet.worldSeed 12345 256 257 129 65, !writeFails conn⟩])

/-- Source: `SendUnknown`. -/
def SendUnknown (writeFails : Conn → Bool) (conn : Conn) (msgType : String) : Send :=
  ⟨conn, Packet.error ("unhandled message type: " ++ msgType), !writeFails conn⟩

/-! ## main.go: the message switch of the connection loop -/

/-- The local `envelope` struct of the connection loop. -/
structure Envelope where
  Type_ : String
  Payload : RawMessage

/-- Field decoding for the `envelope` struct: the payload is kept raw, whatever
JSON value it is. -/
def Envelope.setField (e : Envelope) (key : String) (v : JSON) : Except String Envelope :=
  if key = "type" then do
    let t ← decodeString e.Type_ v
    pure { e with Type_ := t }
  else if key = "payload" then pure { e with Payload := some v }
  else pure e

/-- One iteration of the `for` loop in main.go for a message `msg` read from
`conn`: decode the envelope and switch on its type. -/
def dispatch (now : Conn → Int) (writeFails : Conn → Bool) (verifier : Verifier)
    (hub : Hub) (conn : Conn) (msg : RawMessage) : Hub × List Send :=
  match Unmarshal Envelope.setField ⟨"", none⟩ msg with
  | .error _ => (hub, [])
  | .ok envelope =>
      if envelope.Type_ = "C2S_AUTH" then
        match HandleAuth writeFails envelope.Payload verifier conn with
        | (.error _, out) => (hub, out)
        | (.ok userID, out) => (hub.Register userID conn, out)
      else if envelope.Type_ = "C2S_PLAYER_UPDATE" then
        match hub.UserID conn with
        | some userID => hub.HandlePlayerUpdate now writeFails envelope.Payload userID
        | none => (hub, [])
      else if envelope.Type_ = "C2S_START_RACE" then
        match hub.UserID conn with
        | some _ => (hub, Hub.HandleStartRace writeFails conn envelope.Payload)
        | none => (hub, [])
      else (hub, [SendUnknown writeFails conn envelope.Type_])

/-! ## Reachable hub states and invariant I1 -/

/-- Hub states reachable from `NewHub` by `Register`, `Unregister` and
`HandlePlayerUpdate`, the latter for the identity of a registered connection. -/
inductive Reachable : Hub → Prop
  | init (chunkSize : ℚ) : Reachable (NewHub chunkSize)
  | register (h : Hub) (userID : String) (conn : Conn) :
      Reachable h → Reachable (h.Register userID conn)
  | unregister (h : Hub) (conn : Conn) : Reachable h → Reachable (h.Unregister conn)
  | update (h : Hub) (now : Conn → Int) (writeFails : Conn → Bool) (payload : RawMessage)
      (conn : Conn) (userID : String) :
      Reachable h → h.UserID conn = some userID →
      Reachable (h.HandlePlayerUpdate now writeFails payload userID).1

/-- Invariant I1: every identity with a stored state is the identity of some
registered connection. -/
def I1 (h : Hub) : Prop :=
  ∀ userID : String, (h.playerStates.lookup userID).isSome →
    ∃ conn : Conn, h.connToUser.lookup conn = some userID

/-! ## internal/websocket/handler.go -/

/-- The struct `incomingMessage`. -/
structure incomingMessage where
  Type_ : String
  Payload : RawMessage

/-- Field decoding for `incomingMessage`. -/
def incomingMessage.setField (m : incomingMessage) (key : String) (v : JSON) :
    Except String incomingMessage :=
  if key = "type" then do
    let t ← decodeString m.Type_ v
    pure { m with Type_ := t }
  else if key = "payload" then pure { m with Payload := some v }
  else pure m

/-- The struct `authPayload`. -/
structure authPayload where
  Token : String

/-- Field decoding for `authPayload`. -/
def authPayload.setField (p : authPayload) (key : String) (v : JSON) :
    Except String authPayload :=
  if key = "token" then do
    let t ← decodeString p.Token v
    pure { p with Token := t }
  else pure p

/-- What `Handler.ServeHTTP` does to its connection: a `WriteJSON` of an
`authResult` or of an echoed raw message (with the result of the write), or the
deferred `conn.Close()`. -/
inductive HandlerEvent where
  | writeAuthResult (success : Bool) (error : String) (ok : Bool)
  | writeEcho (raw : JSON) (ok : Bool)
  | close

/-- The echo loop at the end of `ServeHTTP`; `n` counts the writes made so far.
The loop ends at the first failed read (`reads` exhausted, or bytes that are
not JSON) or failed write. -/
def echoLoop (writeFails : Nat → Bool) : Nat → List RawMessage → List HandlerEvent
  | _, [] => []
  | _, none :: _ => []
  | n, some raw :: rest =>
      if writeFails n then [HandlerEvent.writeEcho raw false]
      else HandlerEvent.writeEcho raw true :: echoLoop writeFails (n + 1) rest

/-- Source: `Handler.ServeHTTP`, after a successful upgrade. `reads` are the
messages the client sends before the connection fails; `validateToken` is
`auth.ValidateToken` (environment and JWT library). The result is everything the
handler does to the connection, ending with the deferred close. -/
def ServeHTTP (validateToken : String → Except String Unit) (writeFails : Nat → Bool)
    (reads : List RawMessage) : List HandlerEvent :=
  (match reads with
    | [] => []
    | first :: rest =>
        match Unmarshal incomingMessage.setField ⟨"", none⟩ first with
        | .error _ => []
        | .ok msg =>
            if msg.Type_ ≠ "C2S_AUTH" then []
            else
              match Unmarshal authPayload.setField ⟨""⟩ msg.Payload with
              | .error _ => []
              | .ok payload =>
                  match validateToken payload.Token with
                  | .error err => [HandlerEvent.writeAuthResult false err (!writeFails 0)]
                  | .ok _ =>
                      if writeFails 0 then [HandlerEvent.writeAuthResult true "" false]
                      else
                        HandlerEvent.writeAuthResult true "" true ::
                          echoLoop writeFails 1 rest)
    ++ [HandlerEvent.close]

/-! ## The interest cell index as the specification words it -/

/-- Spec: `cellOf(position, cellSize) -> (cx, cz)`, the X and Z components
divided by the cell size and truncated to an integer. -/
def cellOf (position : Vec3) (cellSize : ℚ) : Int × Int :=
  (truncate (position.e0 / cellSize), truncate (position.e2 / cellSize))

/-- Spec: `interested(cellA, cellB)`, true iff both coordinate-wise absolute
differences are at most 1. -/
def interested (cellA cellB : Int × Int) : Bool :=
  decide (|cellA.1 - cellB.1| ≤ 1) && decide (|cellA.2 - cellB.2| ≤ 1)

/-- The truncated quotients for which Go defines `int(f)` on a `float64` with a
64-bit `int`: the value fits, and since a `float64` carries 53 significant bits
the largest `float64` below `2^63` is `2^63 - 1024`. -/
def IntOfFloat (c : Int) : Prop := -(2 ^ 63) ≤ c ∧ c ≤ 2 ^ 63 - 1024

instance (c : Int) : Decidable (IntOfFloat c) := by
  unfold IntOfFloat
  infer_instance

/-- Whether the writes `out` include an `S2C_WORLD_STATE_UPDATE` to connection `b`. -/
def receivesUpdate (out : List Send) (b : Conn) : Bool :=
  out.any fun s => decide (s.conn = b) &&
    match s.packet with
    | .worldStateUpdate _ _ => true
    | _ => false

/-- The `(conn, packet)` pairs of the writes attempted, without their results. -/
def attempts (out : List Send) : List (Conn × Packet) :=
  out.map fun s => (s.conn, s.packet)

/-- The writes that succeeded. -/
def delivered (out : List Send) : List Send :=
  out.filter fun s => s.ok

/-! ## Concrete messages and hubs used to exercise the statements -/

/-- The JSON of a player state at position `(x, y, z)`, in the documented shape
`{ position, rotation, mode }` (velocity omitted). -/
def stateJSON (x y z : ℚ) : JSON :=
  .obj [("position", .arr [.num x, .num y, .num z]),
        ("rotation", .arr [.num 0, .num 0, .num 0, .num 1]),
        ("mode", .str "flying")]

/-- The player state that `stateJSON x y z` decodes to. -/
def stateAt (x y z : ℚ) : PlayerState := ⟨⟨x, y, z⟩, ⟨0, 0, 0, 1⟩, Vec3.zero, "flying"⟩

/-- A message in the form `HandlePlayerUpdate` decodes: a type tag and a nested payload. -/
def taggedUpdate (tag : String) (x y z : ℚ) : RawMessage :=
  some (.obj [("type", .str tag), ("payload", stateJSON x y z)])

/-- No write fails and the clock reads 0. -/
def clock0 : Conn → Int := fun _ => 0

/-- No write fails. -/
def noFail : Conn → Bool := fun _ => false

/-- Hub of `main` (chunk size 256) with "alice" on connection 1 and "bob" on connection 2. -/
def twoRegistered : Hub := ((NewHub 256).Register "alice" 1).Register "bob" 2

/-- The hub `twoRegistered` after alice reported the origin and bob reported `(x, 0, 0)`. -/
def twoStored (x : ℚ) : Hub :=
  ((twoRegistered.HandlePlayerUpdate clock0 noFail
      (taggedUpdate "C2S_PLAYER_UPDATE" 0 0 0) "alice").1.HandlePlayerUpdate clock0 noFail
      (taggedUpdate "C2S_PLAYER_UPDATE" x 0 0) "bob").1

/-- Whether a decoded message names a velocity: some member `payload` of the
message object is itself an object with a member `velocity`. -/
def mentionsVelocity : JSON → Bool
  | .obj fields => fields.any fun kv =>
      decide (foldKey kv.1 = "payload") &&
        match kv.2 with
        | .obj inner => inner.any fun kv2 => decide (foldKey kv2.1 = "velocity")
        | _ => false
  | _ => false

/-- The keys of the documented payload shape `{ position, rotation, velocity?, mode }`. -/
def documentedKey (key : String) : Bool :=
  decide (key = "position") || decide (key = "rotation") || decide (key = "velocity") ||
    decide (key = "mode")

/-- A C2S_PLAYER_UPDATE envelope as a client sends it to `main`: the payload has
the documented shape. -/
def documentedUpdate (x y z : ℚ) : RawMessage :=
  some (.obj [("type", .str "C2S_PLAYER_UPDATE"), ("payload", stateJSON x y z)])

/-- A tagged update at the origin that also reports the velocity `(5, 0, 0)`. -/
def movingUpdate : RawMessage :=
  some (.obj [("type", .str "C2S_PLAYER_UPDATE"),
    ("payload", .obj [("position", .arr [.num 0, .num 0, .num 0]),
                      ("rotation", .arr [.num 0, .num 0, .num 0, .num 1]),
                      ("velocity", .arr [.num 5, .num 0, .num 0]),
                      ("mode", .str "flying")])])

/-- The hub `twoRegistered` after alice reported the origin with velocity `(5, 0, 0)`. -/
def movingStored : Hub :=
  (twoRegistered.HandlePlayerUpdate clock0 noFail movingUpdate "alice").1

/-- The hub `twoRegistered` after alice reported the origin and bob reported the
JSON number 2e30 as his x coordinate, far outside the range of a 64-bit cell. -/
def farStored : Hub := twoStored 2000000000000000000000000000000

/-- Hub with carol on connection 3 besides alice and bob. -/
def threeRegistered : Hub := twoRegistered.Register "carol" 3

/-- Writes to connection 2 fail, all others succeed. -/
def conn2Fails : Conn → Bool := fun c => decide (c = 2)

/-- A verifier whose JWT library rejects every token. -/
def rejectAll : Verifier :=
  ⟨"secret", fun _ _ => ⟨some "token is malformed", false, false, none⟩⟩

/-- The message `{type: C2S_AUTH, payload: {token: "bad"}}` of the test `TestAuthFailure`. -/
def badAuth : RawMessage :=
  some (.obj [("type", .str "C2S_AUTH"), ("payload", .obj [("token", .str "bad")])])

/-- The first message of the test `TestUnexpectedFirstMessage`. -/
def updateFirst : RawMessage := some (.obj [("type", .str "C2S_PLAYER_UPDATE")])

/-- Alice authenticates on connection 1 and reports a position, then the same
connection authenticates again as bob. -/
def orphaned : Hub :=
  (((NewHub 256).Register "alice" 1).HandlePlayerUpdate clock0 noFail
    (taggedUpdate "C2S_PLAYER_UPDATE" 0 0 0) "alice").1.Register "bob" 1

/-- Hub states reachable when `Register` is only ever called for a connection
that is not registered at that moment. -/
inductive ReachableFresh : Hub → Prop
  | init (chunkSize : ℚ) : ReachableFresh (NewHub chunkSize)
  | register (h : Hub) (userID : String) (conn : Conn) :
      ReachableFresh h → h.UserID conn = none → ReachableFresh (h.Register userID conn)
  | unregister (h : Hub) (conn : Conn) :
      ReachableFresh h → ReachableFresh (h.Unregister conn)
  | update (h : Hub) (now : Conn → Int) (writeFails : Conn → Bool) (payload : RawMessage)
      (conn : Conn) (userID : String) :
      ReachableFresh h → h.UserID conn = some userID →
      ReachableFresh (h.HandlePlayerUpdate now writeFails payload userID).1

/-! ## Interest-gated fan-out -/

/-- On values the float to int conversion can produce, the wrapped comparison of
the code is the mathematical one. -/
theorem absDiffLeOne_iff (a b : Int) (ha : IntOfFloat a) (hb : IntOfFloat b) :
    absDiffLeOne a b = true ↔ |a - b| ≤ 1 := by
  unfold absDiffLeOne
  rw [decide_eq_true_iff, ← Int.cast_abs]
  have h1 : ((|wrapInt (a - b)| : Int) : ℚ) ≤ 1 ↔ |wrapInt (a - b)| ≤ 1 := by
    exact_mod_cast Iff.rfl
  rw [h1, abs_le, abs_le]
  unfold wrapInt
  obtain ⟨ha1, ha2⟩ := ha
  obtain ⟨hb1, hb2⟩ := hb
  norm_num at ha1 ha2 hb1 hb2 ⊢
  omega

/-- Membership in the writes of the fan-out loop: one write per visited entry
of another identity that passes both comparisons. -/
theorem mem_fanOut (now : Conn → Int) (writeFails : Conn → Bool) (h : Hub)
    (payload : PlayerState) (userID : String) (cx cz : Int)
    (es : List (Sigma fun _ : Conn => String)) (s : Send) :
    s ∈ h.fanOut now writeFails payload userID cx cz es ↔
      ∃ e ∈ es, e.2 ≠ userID ∧
        (absDiffLeOne (goInt ((h.stateOf e.2).Position.e0 / h.chunkSize)) cx &&
          absDiffLeOne (goInt ((h.stateOf e.2).Position.e2 / h.chunkSize)) cz) = true ∧
        s = ⟨e.1, Packet.worldStateUpdate [payload] (now e.1), !writeFails e.1⟩ := by
  induction es with
  | nil => simp [Hub.fanOut]
  | cons e rest ih =>
      obtain ⟨conn, otherID⟩ := e
      unfold Hub.fanOut
      by_cases hid : otherID = userID
      · simp [hid, ih]
      · simp only [hid, if_false]
        split
        · rename_i hc
          simp only [List.mem_cons, ih]
          constructor
          · rintro (rfl | ⟨e, he, h1, h2, h3⟩)
            · exact ⟨⟨conn, otherID⟩, Or.inl rfl, hid, hc, rfl⟩
            · exact ⟨e, Or.inr he, h1, h2, h3⟩
          · rintro ⟨e, he | he, h1, h2, h3⟩
            · subst he; exact Or.inl h3
            · exact Or.inr ⟨e, he, h1, h2, h3⟩
        · rename_i hc
          simp only [List.mem_cons, ih]
          constructor
          · rintro ⟨e, he, h1, h2, h3⟩
            exact ⟨e, Or.inr he, h1, h2, h3⟩
          · rintro ⟨e, he | he, h1, h2, h3⟩
            · subst he; exact absurd h2 hc
            · exact ⟨e, he, h1, h2, h3⟩

/-- The result of `HandlePlayerUpdate` on a well-formed update. -/
theorem HandlePlayerUpdate_ok (now : Conn → Int) (writeFails : Conn → Bool) (h : Hub)
    (payload : RawMessage) (userID : String) (update : Update)
    (hdec : Unmarshal Update.setField Update.zero payload = .ok update)
    (hty : update.Type_ = "C2S_PLAYER_UPDATE") :
    h.HandlePlayerUpdate now writeFails payload userID =
      ({ h with playerStates := h.playerStates.insert userID update.Payload },
        Hub.fanOut now writeFails
          { h with playerStates := h.playerStates.insert userID update.Payload }
          update.Payload userID
          (goInt (update.Payload.Position.e0 / h.chunkSize))
          (goInt (update.Payload.Position.e2 / h.chunkSize)) h.connToUser.entries) := by
  unfold Hub.HandlePlayerUpdate
  rw [hdec]
  simp [hty]

/-- Unfolding of `receivesUpdate`. -/
theorem receivesUpdate_iff (out : List Send) (b : Conn) :
    receivesUpdate out b = true ↔
      ∃ s ∈ out, s.conn = b ∧ ∃ ents ts, s.packet = Packet.worldStateUpdate ents ts := by
  unfold receivesUpdate
  rw [List.any_eq_true]
  constructor
  · rintro ⟨s, hs, h⟩
    rw [Bool.and_eq_true, decide_eq_true_iff] at h
    refine ⟨s, hs, h.1, ?_⟩
    cases hp : s.packet with
    | worldStateUpdate e t => exact ⟨e, t, rfl⟩
    | _ => rw [hp] at h; exact absurd h.2 (by simp)
  · rintro ⟨s, hs, hc, e, t, hp⟩
    exact ⟨s, hs, by simp [hc, hp]⟩

/-- Keys of `connToUser` are unique: an entry for `b` carries the identity that
`UserID b` reports. -/
theorem entry_of_lookup (h : Hub) (b : Conn) (idb : String) (hb : h.UserID b = some idb)
    (e : Sigma fun _ : Conn => String) (he : e ∈ h.connToUser.entries) (hc : e.1 = b) :
    e.2 = idb := by
  obtain ⟨c, u⟩ := e
  simp only at hc
  subst hc
  have : u ∈ h.connToUser.lookup c := AList.mem_lookup_iff.mpr he
  unfold Hub.UserID at hb
  rw [hb] at this
  simpa using this.symm

/-- Storing the state of the sender does not change what is read for another identity. -/
theorem stateOf_insert_ne (h : Hub) (userID otherID : String) (p : PlayerState)
    (hne : userID ≠ otherID) :
    Hub.stateOf { h with playerStates := h.playerStates.insert userID p } otherID =
      h.stateOf otherID := by
  unfold Hub.stateOf
  simp only
  rw [AList.lookup_insert_ne (Ne.symm hne)]

/-- The fan-out test for one registered peer, read off the loop: the peer gets
the update exactly when the code's two `math.Abs` comparisons hold for the
state the map read `h.playerStates[otherID]` yields. -/
theorem receivesUpdate_iff_test (now : Conn → Int) (writeFails : Conn → Bool) (h : Hub)
    (b : Conn) (userID idb : String) (payload : RawMessage) (update : Update)
    (hb : h.UserID b = some idb) (hne : userID ≠ idb)
    (hdec : Unmarshal Update.setField Update.zero payload = .ok update)
    (hty : update.Type_ = "C2S_PLAYER_UPDATE") :
    receivesUpdate (h.HandlePlayerUpdate now writeFails payload userID).2 b = true ↔
      (absDiffLeOne (goInt ((h.stateOf idb).Position.e0 / h.chunkSize))
          (goInt (update.Payload.Position.e0 / h.chunkSize)) &&
        absDiffLeOne (goInt ((h.stateOf idb).Position.e2 / h.chunkSize))
          (goInt (update.Payload.Position.e2 / h.chunkSize))) = true := by
  rw [HandlePlayerUpdate_ok now writeFails h payload userID update hdec hty, receivesUpdate_iff]
  have hstate := stateOf_insert_ne h userID idb update.Payload hne
  constructor
  · rintro ⟨s, hs, hc, -⟩
    rw [mem_fanOut] at hs
    obtain ⟨e, he, -, hcnd, rfl⟩ := hs
    have hid : e.2 = idb := entry_of_lookup h b idb hb e he hc
    rw [hid, hstate] at hcnd
    exact hcnd
  · intro hcnd
    have hmem : (⟨b, idb⟩ : Sigma fun _ : Conn => String) ∈ h.connToUser.entries :=
      AList.mem_lookup_iff.mp (by unfold Hub.UserID at hb; rw [hb]; rfl)
    refine ⟨⟨b, Packet.worldStateUpdate [update.Payload] (now b), !writeFails b⟩, ?_, rfl,
      _, _, rfl⟩
    rw [mem_fanOut]
    refine ⟨⟨b, idb⟩, hmem, Ne.symm hne, ?_, rfl⟩
    simp only [hstate]
    exact hcnd

/-- Where the truncated quotient is in range, `int(f)` is the truncation. -/
theorem goInt_of_inRange (f : ℚ) (h : IntOfFloat (truncate f)) : goInt f = truncate f := by
  unfold goInt
  obtain ⟨h1, h2⟩ := h
  rw [if_pos]
  constructor
  · exact h1
  · norm_num at h2 ⊢
    omega

/-- The quotient of zero truncates to zero, whatever the divisor. -/
theorem truncate_zero_div (c : ℚ) : truncate (0 / c) = 0 := by
  simp [truncate]

/-- The coordinate zero is converted to cell 0, whatever the chunk size. -/
theorem goInt_zero_div (c : ℚ) : goInt (0 / c) = 0 := by
  rw [goInt_of_inRange, truncate_zero_div]
  rw [truncate_zero_div]
  unfold IntOfFloat
  norm_num

/-- Against the cell 0 the comparison of the code is exact for every operand:
an out-of-range conversion yields `-2^63`, which is not within 1 of 0, and no
subtraction from 0 wraps into that distance. -/
theorem absDiffLeOne_zero_iff (f : ℚ) :
    absDiffLeOne 0 (goInt f) = true ↔ |truncate f - 0| ≤ 1 := by
  unfold absDiffLeOne
  rw [decide_eq_true_iff, ← Int.cast_abs]
  have h1 : ((|wrapInt (0 - goInt f)| : Int) : ℚ) ≤ 1 ↔ |wrapInt (0 - goInt f)| ≤ 1 := by
    exact_mod_cast Iff.rfl
  rw [h1, abs_le, abs_le]
  unfold wrapInt goInt
  split
  · rename_i hr
    obtain ⟨hr1, hr2⟩ := hr
    norm_num at hr1 hr2 ⊢
    omega
  · rename_i hr
    rw [not_and_or, not_le, not_lt] at hr
    norm_num at hr ⊢
    omega

/-- The two comparisons of the loop agree with `interested` on the cells, for
cells in the range of the float to int conversion. -/
theorem test_iff_interested (sender other : Vec3) (chunkSize : ℚ)
    (hrx : IntOfFloat (cellOf sender chunkSize).1) (hrz : IntOfFloat (cellOf sender chunkSize).2)
    (hox : IntOfFloat (cellOf other chunkSize).1) (hoz : IntOfFloat (cellOf other chunkSize).2) :
    (absDiffLeOne (goInt (other.e0 / chunkSize)) (goInt (sender.e0 / chunkSize)) &&
      absDiffLeOne (goInt (other.e2 / chunkSize)) (goInt (sender.e2 / chunkSize))) = true ↔
      interested (cellOf sender chunkSize) (cellOf other chunkSize) = true := by
  unfold interested
  simp only [cellOf] at hrx hrz hox hoz ⊢
  rw [goInt_of_inRange _ hrx, goInt_of_inRange _ hrz, goInt_of_inRange _ hox,
    goInt_of_inRange _ hoz]
  rw [Bool.and_eq_true, Bool.and_eq_true, absDiffLeOne_iff _ _ hox hrx,
    absDiffLeOne_iff _ _ hoz hrz, decide_eq_true_iff, decide_eq_true_iff,
    abs_sub_comm, abs_sub_comm (truncate (other.e2 / chunkSize))]

/-- Against a peer read at the zero position the two comparisons of the loop
agree with `interested` on the cells for every sender position. -/
theorem test_zero_iff_interested (sender : Vec3) (chunkSize : ℚ) :
    (absDiffLeOne (goInt (Vec3.zero.e0 / chunkSize)) (goInt (sender.e0 / chunkSize)) &&
      absDiffLeOne (goInt (Vec3.zero.e2 / chunkSize)) (goInt (sender.e2 / chunkSize))) = true ↔
      interested (cellOf sender chunkSize) (0, 0) = true := by
  unfold interested
  have h0 : Vec3.zero.e0 = 0 := rfl
  have h2 : Vec3.zero.e2 = 0 := rfl
  simp only [cellOf]
  rw [h0, h2, goInt_zero_div, Bool.and_eq_true, Bool.and_eq_true, absDiffLeOne_zero_iff,
    absDiffLeOne_zero_iff, decide_eq_true_iff, decide_eq_true_iff]

/-- C1, the claim as stated fails: in the hub of main (chunk size 256) alice is
stored at the origin and bob at x = 2e30. Alice sends a well-formed update with
x = 1e30. The cells of the two positions, their x coordinates divided by 256 and
truncated, are about 3.9e27 and 7.8e27 and differ by far more than 1, yet the
update is sent to bob: neither quotient fits a 64-bit int, both conversions
yield the same value and the code sees a difference of 0. -/
theorem far_peers_reached :
    farStored.UserID 1 = some "alice" ∧ farStored.UserID 2 = some "bob" ∧
      farStored.playerStates.lookup "alice" = some (stateAt 0 0 0) ∧
      farStored.playerStates.lookup "bob" =
        some (stateAt 2000000000000000039769249677312 0 0) ∧
      Unmarshal Update.setField Update.zero
          (taggedUpdate "C2S_PLAYER_UPDATE" 1000000000000000000000000000000 0 0) =
        .ok ⟨"C2S_PLAYER_UPDATE", stateAt 1000000000000000019884624838656 0 0⟩ ∧
      interested
          (cellOf (stateAt 1000000000000000019884624838656 0 0).Position farStored.chunkSize)
          (cellOf (stateAt 2000000000000000039769249677312 0 0).Position farStored.chunkSize) =
        false ∧
      receivesUpdate (farStored.HandlePlayerUpdate clock0 noFail
        (taggedUpdate "C2S_PLAYER_UPDATE" 1000000000000000000000000000000 0 0) "alice").2 2 =
        true := by
  decide!

/-- C1 as amended: for two registered connections a and b with different
identities, both with a stored state, and positions whose cells lie in the range
where Go defines the float to int conversion (between -2^63 and 2^63 - 1024), a
well-formed update for the identity of a sends a world state update to b exactly
when the cell of the new position of the sender and the cell of the stored
position of b differ by at most 1 on both axes. -/
theorem HandlePlayerUpdate_sends_iff_interested_in_range (now : Conn → Int)
    (writeFails : Conn → Bool)
    (h : Hub) (a b : Conn) (ida idb : String) (sa sb : PlayerState) (payload : RawMessage)
    (update : Update)
    (_ha : h.UserID a = some ida) (hb : h.UserID b = some idb) (hne : ida ≠ idb)
    (_hsa : h.playerStates.lookup ida = some sa) (hsb : h.playerStates.lookup idb = some sb)
    (hdec : Unmarshal Update.setField Update.zero payload = .ok update)
    (hty : update.Type_ = "C2S_PLAYER_UPDATE")
    (hrx : IntOfFloat (cellOf update.Payload.Position h.chunkSize).1)
    (hrz : IntOfFloat (cellOf update.Payload.Position h.chunkSize).2)
    (hox : IntOfFloat (cellOf sb.Position h.chunkSize).1)
    (hoz : IntOfFloat (cellOf sb.Position h.chunkSize).2) :
    receivesUpdate (h.HandlePlayerUpdate now writeFails payload ida).2 b = true ↔
      interested (cellOf update.Payload.Position h.chunkSize)
        (cellOf sb.Position h.chunkSize) = true := by
  rw [receivesUpdate_iff_test now writeFails h b ida idb payload update hb hne hdec hty]
  have hstate : h.stateOf idb = sb := by
    unfold Hub.stateOf
    rw [hsb]
    rfl
  rw [hstate]
  exact test_iff_interested update.Payload.Position sb.Position h.chunkSize hrx hrz hox hoz

/-- C1 as amended, at the positions of the specification, chunk size 256: a
sender at (0,0,0) reaches a peer stored at (300,0,0) and does not reach a peer
stored at (600,0,0). -/
theorem HandlePlayerUpdate_sends_iff_interested_in_range_witness :
    receivesUpdate ((twoStored 300).HandlePlayerUpdate clock0 noFail
        (taggedUpdate "C2S_PLAYER_UPDATE" 0 0 0) "alice").2 2 = true ∧
      receivesUpdate ((twoStored 600).HandlePlayerUpdate clock0 noFail
        (taggedUpdate "C2S_PLAYER_UPDATE" 0 0 0) "alice").2 2 = false := by
  constructor
  · exact (HandlePlayerUpdate_sends_iff_interested_in_range clock0 noFail (twoStored 300) 1 2
      "alice" "bob" (stateAt 0 0 0) (stateAt 300 0 0)
      (taggedUpdate "C2S_PLAYER_UPDATE" 0 0 0) ⟨"C2S_PLAYER_UPDATE", stateAt 0 0 0⟩
      (by decide!) (by decide!) (by decide) (by decide!) (by decide!) (by decide!) rfl
      (by decide!) (by decide!) (by decide!) (by decide!)).mpr (by decide!)
  · exact Bool.eq_false_iff.mpr (fun hr =>
      absurd ((HandlePlayerUpdate_sends_iff_interested_in_range clock0 noFail (twoStored 600)
        1 2 "alice" "bob" (stateAt 0 0 0) (stateAt 600 0 0)
        (taggedUpdate "C2S_PLAYER_UPDATE" 0 0 0) ⟨"C2S_PLAYER_UPDATE", stateAt 0 0 0⟩
        (by decide!) (by decide!) (by decide) (by decide!) (by decide!) (by decide!) rfl
        (by decide!) (by decide!) (by decide!) (by decide!)).mp hr)
      (by decide!))

/-- C2, the claim as stated fails: in the hub of main with alice and bob
registered and no state stored for bob, an update of alice at the origin is
sent to the connection of bob. -/
theorem stateless_peer_not_skipped :
    twoRegistered.UserID 2 = some "bob" ∧
      twoRegistered.playerStates.lookup "bob" = none ∧
      receivesUpdate (twoRegistered.HandlePlayerUpdate clock0 noFail
        (taggedUpdate "C2S_PLAYER_UPDATE" 0 0 0) "alice").2 2 = true := by
  decide!

/-- C2 as amended: a registered connection whose identity differs from the
sender and has no stored state is read as the zero state, so it is sent the
update exactly when the cell of the sender is within 1 of cell (0,0) on both
axes. This holds for every sender position, in or out of the range of the float
to int conversion. -/
theorem HandlePlayerUpdate_stateless_peer_at_origin (now : Conn → Int)
    (writeFails : Conn → Bool) (h : Hub) (b : Conn) (userID idb : String)
    (payload : RawMessage) (update : Update)
    (hb : h.UserID b = some idb) (hne : userID ≠ idb)
    (hnone : h.playerStates.lookup idb = none)
    (hdec : Unmarshal Update.setField Update.zero payload = .ok update)
    (hty : update.Type_ = "C2S_PLAYER_UPDATE") :
    receivesUpdate (h.HandlePlayerUpdate now writeFails payload userID).2 b = true ↔
      interested (cellOf update.Payload.Position h.chunkSize) (0, 0) = true := by
  rw [receivesUpdate_iff_test now writeFails h b userID idb payload update hb hne hdec hty]
  have hstate : h.stateOf idb = PlayerState.zero := by
    unfold Hub.stateOf
    rw [hnone]
    rfl
  rw [hstate]
  have hz : (PlayerState.zero).Position = Vec3.zero := rfl
  rw [hz]
  exact test_zero_iff_interested update.Payload.Position h.chunkSize

/-- C2 as amended, at concrete inputs: bob, registered without a stored state,
is sent the update of alice at (300,0,0) (cell 1), is not sent the one at
(600,0,0) (cell 2), and is not sent the one at x = 1e30, whose quotient does not
fit a 64-bit int. -/
theorem HandlePlayerUpdate_stateless_peer_at_origin_witness :
    receivesUpdate (twoRegistered.HandlePlayerUpdate clock0 noFail
        (taggedUpdate "C2S_PLAYER_UPDATE" 300 0 0) "alice").2 2 = true ∧
      receivesUpdate (twoRegistered.HandlePlayerUpdate clock0 noFail
        (taggedUpdate "C2S_PLAYER_UPDATE" 600 0 0) "alice").2 2 = false ∧
      receivesUpdate (twoRegistered.HandlePlayerUpdate clock0 noFail
        (taggedUpdate "C2S_PLAYER_UPDATE" 1000000000000000000000000000000 0 0)
        "alice").2 2 = false := by
  refine ⟨?_, ?_, ?_⟩
  · exact (HandlePlayerUpdate_stateless_peer_at_origin clock0 noFail twoRegistered 2
      "alice" "bob" (taggedUpdate "C2S_PLAYER_UPDATE" 300 0 0)
      ⟨"C2S_PLAYER_UPDATE", stateAt 300 0 0⟩ (by decide!) (by decide) (by decide!)
      (by decide!) rfl).mpr (by decide!)
  · exact Bool.eq_false_iff.mpr (fun hr =>
      absurd ((HandlePlayerUpdate_stateless_peer_at_origin clock0 noFail twoRegistered 2
        "alice" "bob" (taggedUpdate "C2S_PLAYER_UPDATE" 600 0 0)
        ⟨"C2S_PLAYER_UPDATE", stateAt 600 0 0⟩ (by decide!) (by decide) (by decide!)
        (by decide!) rfl).mp hr)
      (by decide!))
  · exact Bool.eq_false_iff.mpr (fun hr =>
      absurd ((HandlePlayerUpdate_stateless_peer_at_origin clock0 noFail twoRegistered 2
        "alice" "bob" (taggedUpdate "C2S_PLAYER_UPDATE" 1000000000000000000000000000000 0 0)
        ⟨"C2S_PLAYER_UPDATE", stateAt 1000000000000000019884624838656 0 0⟩ (by decide!)
        (by decide) (by decide!) (by decide!) rfl).mp hr)
      (by decide!))

/-! ## Registry operations -/

/-- C4: after `Register(id, c)` followed by `Unregister(c)`, `UserID(c)` reports
not-found and no player state is stored for `id`, whatever the hub held before. -/
theorem register_unregister (h : Hub) (id : String) (c : Conn) :
    ((h.Register id c).Unregister c).UserID c = none ∧
      ((h.Register id c).Unregister c).playerStates.lookup id = none := by
  unfold Hub.Unregister Hub.Register Hub.UserID
  simp only [AList.lookup_insert]
  exact ⟨AList.lookup_erase c _, AList.lookup_erase id _⟩

/-- A decoded message whose type tag is not C2S_PLAYER_UPDATE makes
`HandlePlayerUpdate` return at once. -/
theorem HandlePlayerUpdate_skip (now : Conn → Int) (writeFails : Conn → Bool)
    (h : Hub) (payload : RawMessage) (userID : String) (update : Update)
    (hdec : Unmarshal Update.setField Update.zero payload = .ok update)
    (hty : update.Type_ ≠ "C2S_PLAYER_UPDATE") :
    h.HandlePlayerUpdate now writeFails payload userID = (h, []) := by
  unfold Hub.HandlePlayerUpdate
  rw [hdec]
  simp [hty]

/-- C6: a payload that decodes with a type tag other than C2S_PLAYER_UPDATE
leaves the hub (connToUser, playerStates, chunk size) exactly as it was and
makes no write to any connection. -/
theorem HandlePlayerUpdate_mismatched_tag (now : Conn → Int) (writeFails : Conn → Bool)
    (h : Hub) (payload : RawMessage) (userID : String) (update : Update)
    (hdec : Unmarshal Update.setField Update.zero payload = .ok update)
    (hty : update.Type_ ≠ "C2S_PLAYER_UPDATE") :
    (h.HandlePlayerUpdate now writeFails payload userID).1 = h ∧
      (h.HandlePlayerUpdate now writeFails payload userID).2 = [] := by
  rw [HandlePlayerUpdate_skip now writeFails h payload userID update hdec hty]
  exact ⟨rfl, rfl⟩

/-- C6 at a concrete input: an update tagged C2S_START_RACE changes nothing in
a hub with two located players and is sent to nobody. -/
theorem HandlePlayerUpdate_mismatched_tag_witness :
    ((twoStored 300).HandlePlayerUpdate clock0 noFail
        (taggedUpdate "C2S_START_RACE" 0 0 0) "alice").1 = twoStored 300 ∧
      ((twoStored 300).HandlePlayerUpdate clock0 noFail
        (taggedUpdate "C2S_START_RACE" 0 0 0) "alice").2 = [] :=
  HandlePlayerUpdate_mismatched_tag clock0 noFail (twoStored 300)
    (taggedUpdate "C2S_START_RACE" 0 0 0) "alice" ⟨"C2S_START_RACE", stateAt 0 0 0⟩
    (by decide!) (by decide)

/-! ## Send failures are isolated -/

/-- The writes attempted by the loop do not depend on which writes fail. -/
theorem fanOut_attempts (now : Conn → Int) (wf1 wf2 : Conn → Bool) (h : Hub)
    (p : PlayerState) (userID : String) (cx cz : Int)
    (es : List (Sigma fun _ : Conn => String)) :
    attempts (h.fanOut now wf1 p userID cx cz es) =
      attempts (h.fanOut now wf2 p userID cx cz es) := by
  induction es with
  | nil => rfl
  | cons e rest ih =>
      obtain ⟨conn, otherID⟩ := e
      unfold Hub.fanOut
      unfold attempts at ih ⊢
      split
      · exact ih
      · dsimp only
        split
        · simp only [List.map_cons, ih]
        · exact ih

/-- The writes that succeed are those of the failure-free loop on the
connections that do not fail. -/
theorem fanOut_delivered (now : Conn → Int) (wf : Conn → Bool) (h : Hub)
    (p : PlayerState) (userID : String) (cx cz : Int)
    (es : List (Sigma fun _ : Conn => String)) :
    attempts (delivered (h.fanOut now wf p userID cx cz es)) =
      (attempts (h.fanOut now (fun _ => false) p userID cx cz es)).filter
        (fun a => !wf a.1) := by
  induction es with
  | nil => rfl
  | cons e rest ih =>
      obtain ⟨conn, otherID⟩ := e
      unfold Hub.fanOut
      unfold attempts delivered at ih ⊢
      split
      · exact ih
      · dsimp only
        split
        · cases hw : wf conn
          · simp [List.filter_cons, hw, ih]
          · simp [List.filter_cons, hw, ih]
        · exact ih

/-- C7: peer-send failures are isolated in `HandlePlayerUpdate`. For any two
failure oracles the resulting hub and the list of attempted writes (connection
and packet) are the same; the writes that succeed are those of the failure-free
run minus the failing connections, so their number is the number of attempts
minus the number of failing ones. The function has no error result. -/
theorem HandlePlayerUpdate_send_failures_isolated (now : Conn → Int)
    (wf1 wf2 : Conn → Bool) (h : Hub) (payload : RawMessage) (userID : String) :
    (h.HandlePlayerUpdate now wf1 payload userID).1 =
        (h.HandlePlayerUpdate now wf2 payload userID).1 ∧
      attempts (h.HandlePlayerUpdate now wf1 payload userID).2 =
        attempts (h.HandlePlayerUpdate now wf2 payload userID).2 ∧
      attempts (delivered (h.HandlePlayerUpdate now wf1 payload userID).2) =
        (attempts (h.HandlePlayerUpdate now (fun _ => false) payload userID).2).filter
          (fun a => !wf1 a.1) ∧
      (delivered (h.HandlePlayerUpdate now wf1 payload userID).2).length +
          ((attempts (h.HandlePlayerUpdate now (fun _ => false) payload userID).2).filter
            (fun a => wf1 a.1)).length =
        (attempts (h.HandlePlayerUpdate now (fun _ => false) payload userID).2).length := by
  have key : ∀ wf : Conn → Bool,
      attempts (delivered (h.HandlePlayerUpdate now wf payload userID).2) =
        (attempts (h.HandlePlayerUpdate now (fun _ => false) payload userID).2).filter
          (fun a => !wf a.1) := by
    intro wf
    unfold Hub.HandlePlayerUpdate
    cases Unmarshal Update.setField Update.zero payload with
    | error e => rfl
    | ok update =>
        dsimp only
        split
        · rfl
        · exact fanOut_delivered now wf _ _ _ _ _ _
  refine ⟨?_, ?_, key wf1, ?_⟩
  · unfold Hub.HandlePlayerUpdate
    cases Unmarshal Update.setField Update.zero payload with
    | error e => rfl
    | ok update =>
        dsimp only
        split <;> rfl
  · unfold Hub.HandlePlayerUpdate
    cases Unmarshal Update.setField Update.zero payload with
    | error e => rfl
    | ok update =>
        dsimp only
        split
        · rfl
        · exact fanOut_attempts now wf1 wf2 _ _ _ _ _ _
  · have hlen : (delivered (h.HandlePlayerUpdate now wf1 payload userID).2).length =
        (attempts (delivered (h.HandlePlayerUpdate now wf1 payload userID).2)).length := by
      unfold attempts
      rw [List.length_map]
    rw [hlen, key wf1]
    generalize attempts (h.HandlePlayerUpdate now (fun _ => false) payload userID).2 = l
    induction l with
    | nil => rfl
    | cons a rest ih =>
        cases hw : wf1 a.1 <;> simp [List.filter_cons, hw] <;> omega

/-- With three registered players and writes to connection 2 failing, an update
of alice is attempted on connections 3 and 2 and delivered on connection 3. -/
theorem isolated_example :
    attempts (threeRegistered.HandlePlayerUpdate clock0 conn2Fails
        (taggedUpdate "C2S_PLAYER_UPDATE" 0 0 0) "alice").2 =
        [(3, Packet.worldStateUpdate [stateAt 0 0 0] 0),
         (2, Packet.worldStateUpdate [stateAt 0 0 0] 0)] ∧
      delivered (threeRegistered.HandlePlayerUpdate clock0 conn2Fails
        (taggedUpdate "C2S_PLAYER_UPDATE" 0 0 0) "alice").2 =
        [⟨3, Packet.worldStateUpdate [stateAt 0 0 0] 0, true⟩] := by
  decide!

/-! ## Wholesale replacement of the sender state -/

/-- An invariant of every successful step is an invariant of a successful fold. -/
theorem foldlM_except_inv {σ κ : Type} (f : σ → κ → Except String σ) (P : σ → Prop)
    (l : List κ) (hstep : ∀ s kv s', kv ∈ l → P s → f s kv = .ok s' → P s') :
    ∀ s s', P s → l.foldlM f s = .ok s' → P s' := by
  induction l with
  | nil =>
      intro s s' hs h
      simp only [List.foldlM_nil] at h
      cases h
      exact hs
  | cons kv rest ih =>
      intro s s' hs h
      rw [List.foldlM_cons] at h
      cases hf : f s kv with
      | error e => rw [hf] at h; cases h
      | ok s1 =>
          rw [hf] at h
          exact ih (fun t kv' t' hm => hstep t kv' t' (List.mem_cons_of_mem _ hm)) s1 s'
            (hstep s kv s1 (List.mem_cons_self _ _) hs hf) h

/-- Decoding a member other than velocity leaves the velocity as it is. -/
theorem setField_velocity (s s' : PlayerState) (key : String) (v : JSON)
    (hk : key ≠ "velocity") (h : PlayerState.setField s key v = .ok s') :
    s'.Velocity = s.Velocity := by
  unfold PlayerState.setField at h
  split at h
  · cases hd : decodeVec3 s.Position v with
    | error e => rw [hd] at h; cases h
    | ok p => rw [hd] at h; cases h; rfl
  · split at h
    · cases hd : decodeVec4 s.Rotation v with
      | error e => rw [hd] at h; cases h
      | ok p => rw [hd] at h; cases h; rfl
    · split at h
      · cases hd : decodeString s.Mode v with
        | error e => rw [hd] at h; cases h
        | ok p => rw [hd] at h; cases h; rfl
      · cases h; rfl

/-- A message that names no velocity decodes to a state with zero velocity. -/
theorem decode_omitted_velocity (j : JSON) (update : Update)
    (hdec : decodeStruct Update.setField Update.zero j = .ok update)
    (hv : mentionsVelocity j = false) : update.Payload.Velocity = Vec3.zero := by
  cases j with
  | null => cases hdec; rfl
  | obj fields =>
      simp only [decodeStruct] at hdec
      refine foldlM_except_inv (fun (s : Update) (kv : String × JSON) =>
        Update.setField s (foldKey kv.1) kv.2)
        (fun u => u.Payload.Velocity = Vec3.zero) fields ?_ Update.zero update rfl hdec
      intro u kv u' hmem hu hset
      dsimp only at hset
      unfold Update.setField at hset
      split at hset
      · cases hd : decodeString u.Type_ kv.2 with
        | error e => rw [hd] at hset; cases hset
        | ok p => rw [hd] at hset; cases hset; exact hu
      · split at hset
        · rename_i hp
          have hkv : (match kv.2 with
              | .obj inner => inner.any fun kv2 => decide (foldKey kv2.1 = "velocity")
              | _ => false) = false := by
            simp only [mentionsVelocity] at hv
            have := List.any_eq_false.mp hv kv hmem
            simpa [hp] using this
          cases hd : decodeStruct PlayerState.setField u.Payload kv.2 with
          | error e => rw [hd] at hset; cases hset
          | ok p =>
              rw [hd] at hset
              cases hset
              simp only
              cases hj : kv.2 with
              | null => rw [hj] at hd; cases hd; exact hu
              | obj inner =>
                  rw [hj] at hd hkv
                  simp only [decodeStruct] at hd
                  simp only at hkv
                  refine foldlM_except_inv (fun (s : PlayerState) (kv : String × JSON) =>
                    PlayerState.setField s (foldKey kv.1) kv.2)
                    (fun s => s.Velocity = Vec3.zero) inner ?_ u.Payload p hu hd
                  intro s kv2 s2 hm2 hs hset2
                  dsimp only at hset2
                  have hne : foldKey kv2.1 ≠ "velocity" := by
                    have := List.any_eq_false.mp hkv kv2 hm2
                    simpa using this
                  rw [setField_velocity s s2 _ _ hne hset2]
                  exact hs
              | bool b => rw [hj] at hd; cases hd
              | num q => rw [hj] at hd; cases hd
              | str q => rw [hj] at hd; cases hd
              | arr q => rw [hj] at hd; cases hd
        · cases hset; exact hu
  | bool b => cases hdec
  | num q => cases hdec
  | str q => cases hdec
  | arr q => cases hdec

/-- C10: a successful `HandlePlayerUpdate` for `userID` stores exactly the decoded
state for `userID`, leaves `connToUser`, the chunk size and the stored state of
every other identity unchanged, and the stored velocity is zero when the message
names no velocity, whatever was stored before. -/
theorem HandlePlayerUpdate_replaces_state (now : Conn → Int) (writeFails : Conn → Bool)
    (h : Hub) (payload : RawMessage) (userID : String) (update : Update)
    (hdec : Unmarshal Update.setField Update.zero payload = .ok update)
    (hty : update.Type_ = "C2S_PLAYER_UPDATE") :
    (h.HandlePlayerUpdate now writeFails payload userID).1.playerStates.lookup userID =
        some update.Payload ∧
      (h.HandlePlayerUpdate now writeFails payload userID).1.connToUser = h.connToUser ∧
      (h.HandlePlayerUpdate now writeFails payload userID).1.chunkSize = h.chunkSize ∧
      (∀ other : String, other ≠ userID →
        (h.HandlePlayerUpdate now writeFails payload userID).1.playerStates.lookup other =
          h.playerStates.lookup other) ∧
      (∀ j : JSON, payload = some j → mentionsVelocity j = false →
        update.Payload.Velocity = Vec3.zero) := by
  rw [HandlePlayerUpdate_ok now writeFails h payload userID update hdec hty]
  refine ⟨AList.lookup_insert _, rfl, rfl, fun other ho => AList.lookup_insert_ne ho, ?_⟩
  intro j hj hv
  subst hj
  exact decode_omitted_velocity j update hdec hv

/-- C10 at a concrete input: alice has velocity (5,0,0) stored; after an update
at (1,2,3) that omits the velocity her stored state is exactly the decoded one,
with zero velocity. -/
theorem HandlePlayerUpdate_replaces_state_witness :
    movingStored.playerStates.lookup "alice" =
        some ⟨⟨0, 0, 0⟩, ⟨0, 0, 0, 1⟩, ⟨5, 0, 0⟩, "flying"⟩ ∧
      (movingStored.HandlePlayerUpdate clock0 noFail
        (taggedUpdate "C2S_PLAYER_UPDATE" 1 2 3) "alice").1.playerStates.lookup "alice" =
        some (stateAt 1 2 3) ∧
      (stateAt 1 2 3).Velocity = Vec3.zero :=
  ⟨by decide!,
    (HandlePlayerUpdate_replaces_state clock0 noFail movingStored
      (taggedUpdate "C2S_PLAYER_UPDATE" 1 2 3) "alice" ⟨"C2S_PLAYER_UPDATE", stateAt 1 2 3⟩
      (by decide!) rfl).1,
    (HandlePlayerUpdate_replaces_state clock0 noFail movingStored
      (taggedUpdate "C2S_PLAYER_UPDATE" 1 2 3) "alice" ⟨"C2S_PLAYER_UPDATE", stateAt 1 2 3⟩
      (by decide!) rfl).2.2.2.2 _ rfl (by decide)⟩


/-! ## The authentication gate of `Handler.ServeHTTP` -/

/-- C8: when the first message of a connection decodes with a type other than
C2S_AUTH, `ServeHTTP` writes nothing and closes the connection. -/
theorem ServeHTTP_unexpected_first_message (validateToken : String → Except String Unit)
    (writeFails : Nat → Bool) (first : RawMessage) (rest : List RawMessage)
    (msg : incomingMessage)
    (hdec : Unmarshal incomingMessage.setField ⟨"", none⟩ first = .ok msg)
    (hty : msg.Type_ ≠ "C2S_AUTH") :
    ServeHTTP validateToken writeFails (first :: rest) = [HandlerEvent.close] := by
  unfold ServeHTTP
  simp only [hdec]
  simp [hty]

/-- C8 on the first message of `TestUnexpectedFirstMessage`. -/
theorem ServeHTTP_unexpected_first_message_witness :
    ServeHTTP (fun _ => .ok ()) (fun _ => false) [updateFirst, badAuth] =
      [HandlerEvent.close] :=
  ServeHTTP_unexpected_first_message (fun _ => .ok ()) (fun _ => false) updateFirst [badAuth]
    ⟨"C2S_PLAYER_UPDATE", none⟩ (by rfl) (by decide)

/-! ## Authentication failure in `HandleAuth` and the dispatch loop -/

/-- A string with a non-empty prefix is not empty. -/
theorem append_ne_empty (s t : String) (hs : s ≠ "") : s ++ t ≠ "" := by
  intro h
  have hl := congrArg String.length h
  rw [String.length_append] at hl
  have h0 : s.length = 0 := by
    have : ("" : String).length = 0 := rfl
    omega
  apply hs
  cases s with
  | mk data =>
      have hd : data = [] := List.length_eq_zero.mp h0
      subst hd
      rfl

/-- Every error message of `Verifier.Parse` is non-empty. -/
theorem Parse_error_ne_empty (v : Verifier) (tokenStr e : String)
    (h : v.Parse tokenStr = .error e) : e ≠ "" := by
  unfold Verifier.Parse at h
  split at h
  · cases h; decide
  · dsimp only at h
    split at h
    · cases h; exact append_ne_empty _ _ (by decide)
    · split at h
      · cases h; decide
      · split at h
        · cases h; decide
        · cases h

/-- On either failure path `HandleAuth` returns an error after exactly one
write, a failed auth result carrying a non-empty error string. -/
theorem HandleAuth_failure (writeFails : Conn → Bool) (payload : RawMessage)
    (verifier : Verifier) (conn : Conn)
    (hfail : (∃ e, Unmarshal AuthRequest.setField ⟨""⟩ payload = .error e) ∨
      ∃ r e, Unmarshal AuthRequest.setField ⟨""⟩ payload = .ok r ∧
        verifier.Parse r.Token = .error e) :
    ∃ err errMsg, errMsg ≠ "" ∧
      HandleAuth writeFails payload verifier conn =
        (.error err, [⟨conn, Packet.authResult false (some errMsg) none, !writeFails conn⟩]) := by
  unfold HandleAuth
  rcases hfail with ⟨e, he⟩ | ⟨r, e, hr, he⟩
  · rw [he]
    exact ⟨e, "invalid payload", by decide, rfl⟩
  · rw [hr]
    dsimp only
    rw [he]
    have hne := Parse_error_ne_empty verifier r.Token e he
    refine ⟨e, e, hne, ?_⟩
    simp [sendAuthResult, hne]

/-- C9: when authentication fails (the auth payload does not parse, or the
verifier rejects the token), `HandleAuth` makes exactly one write, an auth result
with success false and a non-empty error string; the dispatch loop leaves the hub
as it was, so an unregistered connection stays unregistered, and a later
C2S_PLAYER_UPDATE from it changes nothing and is sent to nobody. -/
theorem auth_failure_not_registered (now : Conn → Int) (writeFails : Conn → Bool)
    (verifier : Verifier) (hub : Hub) (conn : Conn) (msg msg2 auth upd : RawMessage)
    (henv : Unmarshal Envelope.setField ⟨"", none⟩ msg = .ok ⟨"C2S_AUTH", auth⟩)
    (hfail : (∃ e, Unmarshal AuthRequest.setField ⟨""⟩ auth = .error e) ∨
      ∃ r e, Unmarshal AuthRequest.setField ⟨""⟩ auth = .ok r ∧
        verifier.Parse r.Token = .error e)
    (hunreg : hub.UserID conn = none)
    (henv2 : Unmarshal Envelope.setField ⟨"", none⟩ msg2 = .ok ⟨"C2S_PLAYER_UPDATE", upd⟩) :
    (∃ errMsg, errMsg ≠ "" ∧
      (HandleAuth writeFails auth verifier conn).2 =
        [⟨conn, Packet.authResult false (some errMsg) none, !writeFails conn⟩]) ∧
      dispatch now writeFails verifier hub conn msg =
        (hub, (HandleAuth writeFails auth verifier conn).2) ∧
      (dispatch now writeFails verifier hub conn msg).1.UserID conn = none ∧
      dispatch now writeFails verifier (dispatch now writeFails verifier hub conn msg).1
        conn msg2 = (hub, []) := by
  obtain ⟨err, errMsg, hne, hauth⟩ := HandleAuth_failure writeFails auth verifier conn hfail
  have hd : dispatch now writeFails verifier hub conn msg =
      (hub, (HandleAuth writeFails auth verifier conn).2) := by
    unfold dispatch
    rw [henv]
    simp only [if_true]
    rw [hauth]
  refine ⟨⟨errMsg, hne, by rw [hauth]⟩, hd, by rw [hd]; exact hunreg, ?_⟩
  rw [hd]
  unfold dispatch
  rw [henv2]
  simp [hunreg]

/-- C9 on the message of `TestAuthFailure`, from the unregistered connection 7. -/
theorem auth_failure_not_registered_witness :
    dispatch clock0 noFail rejectAll twoRegistered 7 badAuth =
        (twoRegistered,
          [⟨7, Packet.authResult false (some "invalid token: token is malformed") none, true⟩]) ∧
      dispatch clock0 noFail rejectAll
        (dispatch clock0 noFail rejectAll twoRegistered 7 badAuth).1 7
        (taggedUpdate "C2S_PLAYER_UPDATE" 0 0 0) = (twoRegistered, []) := by
  have h := auth_failure_not_registered clock0 noFail rejectAll twoRegistered 7 badAuth
    (taggedUpdate "C2S_PLAYER_UPDATE" 0 0 0)
    (some (.obj [("token", .str "bad")])) (some (stateJSON 0 0 0)) (by rfl)
    (Or.inr ⟨⟨"bad"⟩, "invalid token: token is malformed", by rfl, by rfl⟩)
    (by decide!) (by rfl)
  refine ⟨?_, h.2.2.2⟩
  rw [h.2.1]
  rfl

/-! ## Dispatching a player update of the documented shape -/

/-- A fold whose every step returns the state unchanged returns it unchanged. -/
theorem foldlM_except_fixed {σ κ : Type} (f : σ → κ → Except String σ) (l : List κ) (s : σ)
    (hstep : ∀ kv ∈ l, f s kv = .ok s) : l.foldlM f s = .ok s := by
  induction l with
  | nil => rfl
  | cons kv rest ih =>
      rw [List.foldlM_cons, hstep kv (List.mem_cons_self _ _)]
      exact ih (fun kv' hm => hstep kv' (List.mem_cons_of_mem _ hm))

/-- A documented payload key is neither `type` nor `payload`: the `update`
struct skips it. -/
theorem Update_setField_documented (u : Update) (key : String) (v : JSON)
    (hk : documentedKey key = true) : Update.setField u key v = .ok u := by
  unfold documentedKey at hk
  simp only [Bool.or_eq_true, decide_eq_true_iff] at hk
  unfold Update.setField
  have h1 : key ≠ "type" := by
    rintro rfl
    revert hk
    decide
  have h2 : key ≠ "payload" := by
    rintro rfl
    revert hk
    decide
  simp only [h1, h2, if_false]
  rfl

/-- Handed an object of the documented payload shape, `HandlePlayerUpdate`
decodes an empty type tag and returns without effect. -/
theorem HandlePlayerUpdate_documented_ignored (now : Conn → Int) (writeFails : Conn → Bool)
    (h : Hub) (fields : List (String × JSON)) (userID : String)
    (hshape : ∀ kv ∈ fields, documentedKey (foldKey kv.1) = true) :
    h.HandlePlayerUpdate now writeFails (some (.obj fields)) userID = (h, []) := by
  have hdec : Unmarshal Update.setField Update.zero (some (.obj fields)) = .ok Update.zero := by
    simp only [Unmarshal, decodeStruct]
    exact foldlM_except_fixed _ fields Update.zero
      (fun kv hm => Update_setField_documented _ _ _ (hshape kv hm))
  exact HandlePlayerUpdate_skip now writeFails h _ userID Update.zero hdec (by decide)

/-- C5, what the code does: for a registered connection, a C2S_PLAYER_UPDATE
envelope whose payload is an object of the documented shape (keys among position,
rotation, velocity, mode) is dropped by the dispatch: `main` hands the payload to
`HandlePlayerUpdate`, which looks for a type tag inside it and finds none. The
hub is unchanged and nothing is sent. -/
theorem dispatch_documented_update_ignored (now : Conn → Int) (writeFails : Conn → Bool)
    (verifier : Verifier) (hub : Hub) (conn : Conn) (userID : String) (msg : RawMessage)
    (fields : List (String × JSON))
    (_hreg : hub.UserID conn = some userID)
    (henv : Unmarshal Envelope.setField ⟨"", none⟩ msg =
      .ok ⟨"C2S_PLAYER_UPDATE", some (.obj fields)⟩)
    (hshape : ∀ kv ∈ fields, documentedKey (foldKey kv.1) = true) :
    dispatch now writeFails verifier hub conn msg = (hub, []) := by
  unfold dispatch
  rw [henv]
  simp only [if_true]
  have hne : ("C2S_PLAYER_UPDATE" : String) ≠ "C2S_AUTH" := by decide
  simp only [hne, if_false]
  cases hub.UserID conn with
  | none => rfl
  | some uid => exact HandlePlayerUpdate_documented_ignored now writeFails hub fields uid hshape

/-- C5 at the failing input: alice, registered on connection 1 and stored at the
origin, sends a documented update at (300,0,0); her state stays at the origin
and bob is sent nothing. -/
theorem dispatch_documented_update_ignored_witness :
    (twoStored 0).UserID 1 = some "alice" ∧
      (twoStored 0).playerStates.lookup "alice" = some (stateAt 0 0 0) ∧
      dispatch clock0 noFail rejectAll (twoStored 0) 1 (documentedUpdate 300 0 0) =
        (twoStored 0, []) :=
  ⟨by decide!, by decide!,
    dispatch_documented_update_ignored clock0 noFail rejectAll (twoStored 0) 1 "alice"
      (documentedUpdate 300 0 0) _ (by decide!) (by rfl) (by decide)⟩

/-! ## Invariant I1 -/

/-- The only registration left in `orphaned` is bob on connection 1. -/
theorem orphaned_entries : orphaned.connToUser.entries = [⟨1, "bob"⟩] := by decide!

/-- C3, what the code does: the state `orphaned` is reachable from `NewHub` by
Register, HandlePlayerUpdate (for the identity of a registered connection) and
Register again on the same connection, and it violates I1: alice has a stored
state and no connection. -/
theorem I1_broken_by_reregistration : Reachable orphaned ∧ ¬ I1 orphaned := by
  constructor
  · unfold orphaned
    exact Reachable.register _ "bob" 1
      (Reachable.update _ clock0 noFail _ 1 "alice"
        (Reachable.register _ "alice" 1 (Reachable.init 256)) (by decide!))
  · intro hI
    obtain ⟨conn, hc⟩ := hI "alice" (by decide!)
    have hm : (⟨conn, "alice"⟩ : Sigma fun _ : Conn => String) ∈ orphaned.connToUser.entries :=
      AList.mem_lookup_iff.mp (by rw [hc]; rfl)
    rw [orphaned_entries] at hm
    simp only [List.mem_singleton] at hm
    have h2 := congrArg Sigma.snd hm
    simp only at h2
    exact absurd h2 (by decide)

/-- The hub after `HandlePlayerUpdate` is the hub before, up to the stored
state of `userID`. -/
theorem HandlePlayerUpdate_fst (now : Conn → Int) (writeFails : Conn → Bool) (h : Hub)
    (payload : RawMessage) (userID : String) :
    (h.HandlePlayerUpdate now writeFails payload userID).1 = h ∨
      ∃ p : PlayerState, (h.HandlePlayerUpdate now writeFails payload userID).1 =
        { h with playerStates := h.playerStates.insert userID p } := by
  unfold Hub.HandlePlayerUpdate
  cases Unmarshal Update.setField Update.zero payload with
  | error e => exact Or.inl rfl
  | ok update =>
      dsimp only
      split
      · exact Or.inl rfl
      · exact Or.inr ⟨update.Payload, rfl⟩

/-- I1 holds in a new hub. -/
theorem I1_NewHub (chunkSize : ℚ) : I1 (NewHub chunkSize) := by
  intro userID hs
  simp [NewHub] at hs

/-- Registering a connection that is not registered preserves I1. -/
theorem I1_Register_fresh (h : Hub) (userID : String) (conn : Conn) (hI : I1 h)
    (hfresh : h.UserID conn = none) : I1 (h.Register userID conn) := by
  intro uid hs
  obtain ⟨c, hc⟩ := hI uid hs
  refine ⟨c, ?_⟩
  have hne : c ≠ conn := by
    rintro rfl
    unfold Hub.UserID at hfresh
    rw [hfresh] at hc
    cases hc
  unfold Hub.Register
  simp only
  rw [AList.lookup_insert_ne hne]
  exact hc

/-- Unregistering preserves I1. -/
theorem I1_Unregister (h : Hub) (conn : Conn) (hI : I1 h) : I1 (h.Unregister conn) := by
  unfold Hub.Unregister
  cases hl : h.connToUser.lookup conn with
  | none => exact hI
  | some owner =>
      intro uid hs
      simp only at hs ⊢
      have hne : uid ≠ owner := by
        rintro rfl
        rw [AList.lookup_erase] at hs
        cases hs
      rw [AList.lookup_erase_ne hne] at hs
      obtain ⟨c, hc⟩ := hI uid hs
      refine ⟨c, ?_⟩
      have hcne : c ≠ conn := by
        rintro rfl
        rw [hl] at hc
        cases hc
        exact hne rfl
      rw [AList.lookup_erase_ne hcne]
      exact hc

/-- An update for the identity of a registered connection preserves I1. -/
theorem I1_HandlePlayerUpdate (now : Conn → Int) (writeFails : Conn → Bool) (h : Hub)
    (payload : RawMessage) (conn : Conn) (userID : String) (hI : I1 h)
    (hreg : h.UserID conn = some userID) :
    I1 (h.HandlePlayerUpdate now writeFails payload userID).1 := by
  rcases HandlePlayerUpdate_fst now writeFails h payload userID with heq | ⟨p, heq⟩
  · rw [heq]; exact hI
  · rw [heq]
    intro uid hs
    simp only at hs ⊢
    by_cases hu : uid = userID
    · subst hu
      exact ⟨conn, hreg⟩
    · rw [AList.lookup_insert_ne hu] at hs
      exact hI uid hs

/-- Invariant I1 holds in every state reached with `Register` applied to
unregistered connections only. -/
theorem I1_of_reachableFresh (h : Hub) (hr : ReachableFresh h) : I1 h := by
  induction hr with
  | init chunkSize => exact I1_NewHub chunkSize
  | register h userID conn _ hfresh ih => exact I1_Register_fresh h userID conn ih hfresh
  | unregister h conn _ ih => exact I1_Unregister h conn ih
  | update h now writeFails payload conn userID _ hreg ih =>
      exact I1_HandlePlayerUpdate now writeFails h payload conn userID ih hreg

end Wingsuits
